import Mathlib

/-!
Verification of the BerllogApp mobile client's core utility logic.

The definitions below are shallow embeddings of the JavaScript source:

* the three per-file copies of `getImageUrl` (user-details screen,
  post-details file, home screen) together with the string helpers they
  rely on (leading-slash stripping, first-occurrence replacement,
  `encodeURIComponent`);
* the retry state machine of `useImageWithFallback` / `handleImageError`
  (cursor-based copies in the user-details and post-details files, and the
  includes-based copy in the home screen);
* the persistent key-value store operations (theme preference, local poll
  votes, auth token reads);
* the screen fetch operations (events, user profile, map posts) and the
  client-side event sorting;
* the theme toggle.

Theorems named `C1_…` through `C10_…` settle the corresponding
specification claims.
-/

namespace Berllog

/-- Default API base: `EXPO_PUBLIC_API_BASE` fallback with a trailing
slash stripped (the default has none). -/
def BASE_URL : String := "http://127.0.0.1:8000"

/-- `API_CONFIG.STORAGE_PATHS`, identical in every file that declares it. -/
def STORAGE_PATHS : List String := ["/storage/", "/", "/public/storage/"]

/-- ASCII lower-casing of one character, as the case-insensitive regex
flag compares letters. -/
def lowerChar (c : Char) : Char :=
  if 'A' ≤ c && c ≤ 'Z' then Char.ofNat (c.toNat + 32) else c

/-- ASCII lower-casing of a string. -/
def lowerStr (s : String) : String :=
  ⟨s.data.map lowerChar⟩

/-- `s.startsWith(pre)` (also the anchored regex prefix test). -/
def startsWithStr (s pre : String) : Bool :=
  pre.data.isPrefixOf s.data

/-- The test `/^https?:\/\//i.test(s)`: a case-insensitive check that the
string starts with `http://` or `https://`. -/
def isAbsoluteUrl (s : String) : Bool :=
  startsWithStr (lowerStr s) "http://" || startsWithStr (lowerStr s) "https://"

/-- `String(p).replace(/^\/+/, '')` (the `g` flag is irrelevant on an
anchored pattern): drop every leading `/`. -/
def stripLeadingSlashes (s : String) : String :=
  ⟨s.data.dropWhile (· == '/')⟩

/-- `s.includes('/')` and similar single-character membership tests. -/
def containsChar (s : String) (c : Char) : Bool :=
  s.data.contains c

/-- Remove the first occurrence of `pat` from a character list, as the
JavaScript `replace(pat, '')` with a string pattern does. -/
def replaceFirstAux (pat : List Char) : List Char → List Char
  | [] => []
  | c :: rest =>
    if pat.isPrefixOf (c :: rest) then (c :: rest).drop pat.length
    else c :: replaceFirstAux pat rest

/-- `s.replace(pat, '')` with a string pattern: only the first occurrence
is removed. -/
def replaceFirst (s pat : String) : String :=
  ⟨replaceFirstAux pat.data s.data⟩

/-- `s.split('/')[0]`: the characters before the first `/`. -/
def firstSegment (s : String) : String :=
  ⟨s.data.takeWhile (fun c => c != '/')⟩

/-- `s.split('/').pop()`: the characters after the last `/`. -/
def lastSegment (s : String) : String :=
  ⟨(s.data.reverse.takeWhile (fun c => c != '/')).reverse⟩

/-- Substring test on character lists, used for `String.prototype.includes`. -/
def listContainsSub (pat : List Char) : List Char → Bool
  | [] => pat.isEmpty
  | c :: rest => pat.isPrefixOf (c :: rest) || listContainsSub pat rest

/-- `s.includes(pat)`. -/
def jsIncludes (s pat : String) : Bool :=
  listContainsSub pat.data s.data

/-- Characters `encodeURIComponent` leaves as-is. -/
def isUnreservedChar (c : Char) : Bool :=
  c.isAlphanum ||
    c ∈ ['-', '_', '.', '!', '~', '*', Char.ofNat 39, '(', ')']

/-- The UTF-8 bytes of a character, as natural numbers. -/
def utf8Bytes (c : Char) : List Nat :=
  let n := c.toNat
  if n < 0x80 then [n]
  else if n < 0x800 then [0xC0 + n / 64, 0x80 + n % 64]
  else if n < 0x10000 then
    [0xE0 + n / 4096, 0x80 + (n / 64) % 64, 0x80 + n % 64]
  else
    [0xF0 + n / 262144, 0x80 + (n / 4096) % 64, 0x80 + (n / 64) % 64,
      0x80 + n % 64]

/-- Uppercase hexadecimal digit. -/
def hexDigit (n : Nat) : Char :=
  if n < 10 then Char.ofNat (48 + n) else Char.ofNat (55 + n)

/-- Percent-encoding of one byte, e.g. `%20`. -/
def percentByte (b : Nat) : String :=
  ⟨['%', hexDigit (b / 16), hexDigit (b % 16)]⟩

/-- `encodeURIComponent` on one character. -/
def encodeChar (c : Char) : String :=
  if isUnreservedChar c then String.singleton c
  else String.join ((utf8Bytes c).map percentByte)

/-- `encodeURIComponent`. -/
def encodeURIComponent (s : String) : String :=
  String.join (s.data.map encodeChar)

namespace UserDetails

/-- `getImageUrl` from the user-details screen.  A missing / empty image
path yields `none` (the JavaScript function returns `null`). -/
def getImageUrl (imagePath apiBase : String) (isUserAvatar : Bool) :
    Option String :=
  if imagePath = "" then none
  else if isAbsoluteUrl imagePath then some imagePath
  else
    let cleaned := stripLeadingSlashes imagePath
    if isUserAvatar || startsWithStr cleaned "avatar/" then
      if !containsChar cleaned '/' then
        some (apiBase ++ "/api/users/" ++ cleaned ++ "/avatar")
      else
        some (apiBase ++ "/storage/" ++ cleaned)
    else
      some (apiBase ++ "/storage/" ++ cleaned)

end UserDetails

namespace PostDetails

/-- `getImageUrl` from the post-details file: like the user-details copy
but with two extra branches for garbage-post images. -/
def getImageUrl (imagePath apiBase : String) (isUserAvatar : Bool) :
    Option String :=
  if imagePath = "" then none
  else if isAbsoluteUrl imagePath then some imagePath
  else
    let cleaned := stripLeadingSlashes imagePath
    if isUserAvatar || startsWithStr cleaned "avatar/" then
      if !containsChar cleaned '/' then
        some (apiBase ++ "/api/users/" ++ cleaned ++ "/avatar")
      else
        some (apiBase ++ "/storage/" ++ cleaned)
    else if startsWithStr cleaned "storage/garbage_post_images/" then
      some (apiBase ++ "/" ++ cleaned)
    else if startsWithStr cleaned "garbage_post_images/" then
      some (apiBase ++ "/storage/" ++ cleaned)
    else
      some (apiBase ++ "/storage/" ++ cleaned)

end PostDetails

namespace Home

/-- `getImageUrl` from the home screen: no avatar flag; slash-free paths
go under `/storage/avatar/`, generic paths directly under the base. -/
def getImageUrl (imagePath apiBase : String) : Option String :=
  if imagePath = "" then none
  else if isAbsoluteUrl imagePath then some imagePath
  else
    let cleaned := stripLeadingSlashes imagePath
    if startsWithStr cleaned "storage/garbage_post_images/" then
      some (apiBase ++ "/" ++ cleaned)
    else if startsWithStr cleaned "garbage_post_images/" then
      some (apiBase ++ "/storage/" ++ cleaned)
    else if startsWithStr cleaned "avatar/" then
      some (apiBase ++ "/storage/" ++ cleaned)
    else if !containsChar cleaned '/' then
      some (apiBase ++ "/storage/avatar/" ++ cleaned)
    else
      some (apiBase ++ "/" ++ cleaned)

end Home

example :
    Home.getImageUrl "photo.png" BASE_URL =
      some "http://127.0.0.1:8000/storage/avatar/photo.png" := by decide

example :
    UserDetails.getImageUrl "photo.png" BASE_URL false =
      some "http://127.0.0.1:8000/storage/photo.png" := by decide

example :
    PostDetails.getImageUrl "storage/garbage_post_images/x.jpg" BASE_URL false =
      some "http://127.0.0.1:8000/storage/garbage_post_images/x.jpg" := by
  decide

example :
    UserDetails.getImageUrl "storage/garbage_post_images/x.jpg" BASE_URL false =
      some "http://127.0.0.1:8000/storage/storage/garbage_post_images/x.jpg" := by
  decide

example : encodeURIComponent " " = "%20" := by decide

example : encodeURIComponent "A" = "A" := by decide

/-- `getInitial` of the image hooks: `'U'` for a missing name, otherwise
the first character upper-cased (ASCII). -/
def getInitial (userName : String) : String :=
  if userName = "" then "U"
  else
    match userName.data with
    | [] => "U"
    | c :: _ => String.singleton (Char.toUpper c)

/-- The ui-avatars fallback URL built by `useFallbackAvatar` in the
user-details and post-details hooks. -/
def fallbackUrl (userName : String) : String :=
  "https://ui-avatars.com/api/?name=" ++ encodeURIComponent (getInitial userName) ++
    "&background=random&color=fff&size=100"

/-- The retry URL chosen by `handleImageError` (user-details and
post-details copies) for a given cleaned path and cursor position. -/
def retryUrl (apiBase cleaned : String) (isUserAvatar : Bool)
    (pathIndex : Nat) : String :=
  if isUserAvatar then
    if pathIndex = 0 then
      apiBase ++ "/storage/avatar/" ++ replaceFirst cleaned "avatar/"
    else if pathIndex = 1 then
      apiBase ++ "/api/users/" ++ firstSegment (replaceFirst cleaned "avatar/") ++
        "/avatar"
    else
      apiBase ++ STORAGE_PATHS.getD pathIndex "" ++ cleaned
  else
    apiBase ++ STORAGE_PATHS.getD pathIndex "" ++ cleaned

/-- Hook state: the mutable refs and state cells of `useImageWithFallback`. -/
structure ImgState where
  retryCount : Nat
  source : Option String
  imageError : Bool
  deriving DecidableEq

/-- `maxRetries = API_CONFIG.STORAGE_PATHS.length`. -/
def maxRetries : Nat := STORAGE_PATHS.length

/-- `useFallbackAvatar`: flag the error and point the source at the
generated-avatar service. -/
def useFallbackAvatar (userName : String) (s : ImgState) : ImgState :=
  { s with imageError := true, source := some (fallbackUrl userName) }

/-- `handleImageError` of the user-details and post-details hooks, as a
transition on the hook state. -/
def handleImageError (initialImagePath apiBase userName : String)
    (isUserAvatar : Bool) (s : ImgState) : ImgState :=
  if s.retryCount < maxRetries && !(initialImagePath == "") then
    let pathIndex := s.retryCount
    let s1 := { s with retryCount := s.retryCount + 1 }
    let cleaned := stripLeadingSlashes initialImagePath
    if pathIndex < STORAGE_PATHS.length then
      { s1 with source := some (retryUrl apiBase cleaned isUserAvatar pathIndex) }
    else
      useFallbackAvatar userName s1
  else
    useFallbackAvatar userName s

/-- The hook state right after the initialization effect of the
user-details copy ran. -/
def initState (path apiBase : String) (isUserAvatar : Bool) : ImgState :=
  if path ≠ "" then
    { retryCount := 0
      source := UserDetails.getImageUrl path apiBase isUserAvatar
      imageError := false }
  else
    { retryCount := 0, source := none, imageError := false }

/-- The absorbing fallback state. -/
def fallbackState (userName : String) (rc : Nat) : ImgState :=
  { retryCount := rc, source := some (fallbackUrl userName), imageError := true }

namespace Home

/-- Hook state of the home-screen `useImageWithFallback`. -/
structure HomeImgState where
  imageError : Bool
  source : Option String
  deriving DecidableEq

/-- The home-screen fallback URL (no `encodeURIComponent`, the initial is
passed in by the caller). -/
def homeFallbackUrl (userInitial : String) : String :=
  "https://ui-avatars.com/api/?name=" ++ (if userInitial = "" then "U" else userInitial) ++
    "&background=random&color=fff&size=100"

/-- The loop of the home-screen `handleImageError`: the first storage path
not already contained in the original URL, applied to its last segment. -/
def homeFindAlt (base url : String) : List String → Option String
  | [] => none
  | p :: rest =>
    if jsIncludes url p then homeFindAlt base url rest
    else if lastSegment url ≠ "" then some (base ++ p ++ lastSegment url)
    else homeFindAlt base url rest

/-- `handleImageError` of the home-screen hook. -/
def handleImageError (base initialUrl userInitial : String)
    (s : HomeImgState) : HomeImgState :=
  if s.imageError then
    { imageError := true, source := some (homeFallbackUrl userInitial) }
  else if initialUrl ≠ "" then
    match homeFindAlt base initialUrl STORAGE_PATHS with
    | some alt => { s with source := some alt }
    | none => { imageError := true, source := some (homeFallbackUrl userInitial) }
  else
    { imageError := true, source := some (homeFallbackUrl userInitial) }

end Home

example :
    retryUrl BASE_URL "pic.png" false 0 = "http://127.0.0.1:8000/storage/pic.png" := by
  decide

example :
    Home.homeFindAlt BASE_URL "http://127.0.0.1:8000/storage/photo.png" STORAGE_PATHS =
      some "http://127.0.0.1:8000/public/storage/photo.png" := by decide

/-! ## Persistent key-value store (`AsyncStorage`) -/

/-- The device key-value store, as an association list. -/
abbrev Store := List (String × String)

/-- `AsyncStorage.setItem`. -/
def setItem (key value : String) (s : Store) : Store :=
  (key, value) :: s.filter (fun kv => kv.1 ≠ key)

/-- `AsyncStorage.getItem`. -/
def getItem (key : String) (s : Store) : Option String :=
  (s.find? (fun kv => kv.1 = key)).map Prod.snd

/-- The keys currently persisted. -/
def storeKeys (s : Store) : List String := s.map Prod.fst

/-- `const token = null` in `MapScreen.handleVote` ("Replace with your auth
token retrieval logic"). -/
def handleVoteToken : Option String := none

/-- The store effect of `MapScreen.handleVote`: with no auth token the
handler returns before reaching the network call, so the local-votes key is
only written behind the token guard.  `serializedVotes` stands for the
`JSON.stringify` payload of either branch. -/
def handleVoteStore (serializedVotes : String) (s : Store) : Store :=
  match handleVoteToken with
  | none => s
  | some _ => setItem "user_poll_votes" serializedVotes s

/-- The store effect of `saveThemePreference` (run only when the mode is
not `'system'`, per the effect guard in `ThemeProvider`). -/
def saveThemePreferenceStore (themeMode : String) (s : Store) : Store :=
  if themeMode ≠ "system" then setItem "theme_preference" themeMode s else s

/-- Every repository operation that touches `AsyncStorage`. -/
inductive StoreOp where
  | saveThemePreference (mode : String)
  | loadThemePreference
  | loadSavedVotes
  | loadAuthToken
  | handleVote (serializedVotes : String)

/-- Store semantics of each operation; the loads only read. -/
def applyStoreOp : StoreOp → Store → Store
  | .saveThemePreference mode, s => saveThemePreferenceStore mode s
  | .loadThemePreference, s => s
  | .loadSavedVotes, s => s
  | .loadAuthToken, s => s
  | .handleVote votes, s => handleVoteStore votes s

/-! ## Screen fetches and event sorting -/

/-- An event as the events screen consumes it: a date string and an
optional title. -/
structure Event where
  date : String
  title : Option String
  deriving DecidableEq

/-- State of the events screen. -/
structure EventsScreenState where
  events : List Event
  loading : Bool
  error : String
  refreshing : Bool

/-- `fetchEvents`: clear the error, maybe set loading, then either store
the response's events array or log and set the generic message; the
`finally` clause clears the loading and refreshing flags. -/
def fetchEvents (t : String → String)
    (resp : Except String (Option (List Event)))
    (s : EventsScreenState) : EventsScreenState :=
  let s0 := { s with error := "" }
  let s1 := if !s0.refreshing then { s0 with loading := true } else s0
  match resp with
  | .ok payload =>
    { s1 with events := payload.getD [], loading := false, refreshing := false }
  | .error _ =>
    { s1 with error := t "events_load_error", loading := false, refreshing := false }

/-- State of the user-details screen, over an abstract profile type. -/
structure ProfileState (α : Type) where
  profile : Option α
  loading : Bool
  error : String
  refreshing : Bool

/-- `fetchUserProfile`: same shape as `fetchEvents`, storing the profile
payload on success. -/
def fetchUserProfile {α : Type} (t : String → String)
    (resp : Except String α) (s : ProfileState α) : ProfileState α :=
  let s0 := { s with error := "" }
  let s1 := if !s0.refreshing then { s0 with loading := true } else s0
  match resp with
  | .ok d =>
    { s1 with profile := some d, loading := false, refreshing := false }
  | .error _ =>
    { s1 with error := t "failed_to_load_profile", loading := false, refreshing := false }

/-- `String.prototype.trim`: strip ASCII whitespace from both ends. -/
def jsTrim (s : String) : String :=
  let ws := fun c : Char => c == ' ' || c == '\t' || c == '\n' || c == '\r'
  ⟨((s.data.dropWhile ws).reverse.dropWhile ws).reverse⟩

/-- State of the post-details screen: the loaded post and the flags.  The
screen has no error-message state at all. -/
structure PostDetailsState (α : Type) where
  post : Option α
  loading : Bool
  refreshing : Bool

/-- `fetchPostDetails` from the post-details file: guard on the post id,
then either store the extracted post data (`.ok none` models a payload
without a valid `id`) or, on HTTP failure, log and set the loaded post to
`null`; the flags are cleared on every path. -/
def fetchPostDetails {α : Type} (postId : String)
    (resp : Except String (Option α)) (s : PostDetailsState α) :
    PostDetailsState α :=
  if postId = "" then
    { s with post := none, loading := false, refreshing := false }
  else
    let normalizedId := jsTrim postId
    if normalizedId = "" || normalizedId = "undefined" || normalizedId = "null" then
      { s with post := none, loading := false, refreshing := false }
    else
      let s1 := { s with loading := true }
      match resp with
      | .ok (some postData) =>
        { s1 with post := some postData, loading := false, refreshing := false }
      | .ok none =>
        { s1 with post := none, loading := false, refreshing := false }
      | .error _ =>
        { s1 with post := none, loading := false, refreshing := false }

/-- `sortedEvents`: copy the state array and sort by the selected option;
`dateVal` stands for `new Date(·).getTime()` and `localeCompare` for
`String.prototype.localeCompare`.  Sorting is modelled by the stable
`mergeSort`, matching the specified stability of `Array.prototype.sort`. -/
def sortedEvents (dateVal : String → Int) (localeCompare : String → String → Int)
    (sortBy : String) (events : List Event) : List Event :=
  if events.length = 0 then []
  else
    let copy := events
    if sortBy = "recent" then
      copy.mergeSort (fun a b => dateVal a.date ≤ dateVal b.date)
    else if sortBy = "oldest" then
      copy.mergeSort (fun a b => dateVal b.date ≤ dateVal a.date)
    else if sortBy = "alphabet" then
      copy.mergeSort (fun a b =>
        localeCompare (a.title.getD "") (b.title.getD "") ≤ 0)
    else copy

/-! ## Map-screen posts -/

/-- A raw coordinate field as the map screen inspects it: its JavaScript
truthiness and its `parseFloat` value (`none` for `NaN`). -/
structure RawField where
  truthy : Bool
  parsed : Option Rat
  deriving DecidableEq

/-- The coordinate-parsing ladder of `fetchPosts`:
`post.latitude` (or `post.longitude`) first, then `post.lat` (`post.lng`). -/
def parseCoord (primary fallback : RawField) : Option Rat :=
  if primary.truthy && primary.parsed.isSome then primary.parsed
  else if fallback.truthy && fallback.parsed.isSome then fallback.parsed
  else none

/-- The coordinate fields of a raw post from the API. -/
structure RawPost where
  latitude : RawField
  lat : RawField
  longitude : RawField
  lng : RawField
  deriving DecidableEq

/-- A processed post as stored in the `posts` state (coordinates only;
the screen adds further display fields). -/
structure ProcessedPost where
  lat : Option Rat
  lng : Option Rat
  deriving DecidableEq

/-- JavaScript truthiness of a `number | null` value: `null`, `NaN` and
`0` are falsy. -/
def truthyNum : Option Rat → Bool
  | none => false
  | some q => q != 0

/-- The map/filter pipeline of `fetchPosts` ending in
`.filter(post => post.lat && post.lng)`. -/
def processPosts (data : List RawPost) : List ProcessedPost :=
  (data.map (fun p =>
      { lat := parseCoord p.latitude p.lat
        lng := parseCoord p.longitude p.lng })).filter
    (fun p => truthyNum p.lat && truthyNum p.lng)

/-! ## Theme toggle -/

/-- `toggleTheme` of `ThemeProvider`. -/
def toggleTheme (current : String) : String :=
  if current = "light" then "dark"
  else if current = "dark" then "system"
  else "light"

/-! ## Helper lemmas -/

/-- Strings of different lengths differ. -/
theorem ne_of_length_ne {x y : String} (h : x.length ≠ y.length) : x ≠ y :=
  fun he => h (he ▸ rfl)

/-- Appending the same string on the left preserves inequality. -/
theorem append_right_ne (a : String) {x y : String} (h : x ≠ y) :
    a ++ x ≠ a ++ y := by
  intro he
  apply h
  apply String.ext
  have hd : a.data ++ x.data = a.data ++ y.data := by
    have := congrArg String.data he
    simpa only [String.data_append] using this
  exact List.append_cancel_left hd

/-- Two strings whose character data start with distinct two-character
runs differ. -/
theorem ne_of_head2_ne (c cx cy : Char) (lx ly : List Char) {x y : String}
    (hx : x.data = c :: cx :: lx) (hy : y.data = c :: cy :: ly)
    (h : cx ≠ cy) : x ≠ y := by
  intro he
  rw [he, hy] at hx
  exact h (by injection hx with _ h2; injection h2 with h3 _; exact h3.symm)

/-!
## Claim theorems
-/

/-- C10: `toggleTheme` maps `'light'` to `'dark'`, `'dark'` to `'system'`,
and every other value (including `'system'`) to `'light'`; applying it
three times starting from any of the three modes returns the starting
mode. -/
theorem C10_toggleTheme_three_cycle :
    toggleTheme "light" = "dark" ∧ toggleTheme "dark" = "system" ∧
    (∀ s : String, s ≠ "light" → s ≠ "dark" → toggleTheme s = "light") ∧
    (∀ s : String, s = "light" ∨ s = "dark" ∨ s = "system" →
      toggleTheme (toggleTheme (toggleTheme s)) = s) := by
  refine ⟨by decide, by decide, ?_, ?_⟩
  · intro s h1 h2
    simp [toggleTheme, h1, h2]
  · rintro s (rfl | rfl | rfl) <;> decide

/-- Witness for C10 at the mode `'system'`. -/
theorem C10_toggleTheme_three_cycle_witness :
    toggleTheme "system" = "light" ∧
    toggleTheme (toggleTheme (toggleTheme "system")) = "system" :=
  ⟨C10_toggleTheme_three_cycle.2.2.1 "system" (by decide) (by decide),
   C10_toggleTheme_three_cycle.2.2.2 "system" (Or.inr (Or.inr rfl))⟩

/-- C4: every reference that matches the case-insensitive `http(s)://`
prefix test is returned unchanged by all three `getImageUrl` copies, for
every API base and every avatar flag. -/
theorem C4_absolute_url_unchanged (path base : String) (flag : Bool)
    (h : isAbsoluteUrl path = true) :
    UserDetails.getImageUrl path base flag = some path ∧
    PostDetails.getImageUrl path base flag = some path ∧
    Home.getImageUrl path base = some path := by
  have hne : path ≠ "" := by
    intro he
    rw [he] at h
    exact absurd h (by decide)
  refine ⟨?_, ?_, ?_⟩ <;>
    simp [UserDetails.getImageUrl, PostDetails.getImageUrl, Home.getImageUrl,
      hne, h]

/-- Witness for C4 at a mixed-case absolute URL. -/
theorem C4_absolute_url_unchanged_witness :
    UserDetails.getImageUrl "HTTPS://cdn.example.com/a.png" "base" true =
      some "HTTPS://cdn.example.com/a.png" ∧
    PostDetails.getImageUrl "HTTPS://cdn.example.com/a.png" "base" true =
      some "HTTPS://cdn.example.com/a.png" ∧
    Home.getImageUrl "HTTPS://cdn.example.com/a.png" "base" =
      some "HTTPS://cdn.example.com/a.png" :=
  C4_absolute_url_unchanged "HTTPS://cdn.example.com/a.png" "base" true (by decide)

/-- C6: every store-touching operation leaves the set of persisted keys
inside the old keys plus the theme flag and the auth token; in particular
`handleVote` persists nothing because its auth token is the literal
`null`. -/
theorem C6_store_keys_invariant (op : StoreOp) (s : Store) (k : String)
    (hk : k ∈ storeKeys (applyStoreOp op s)) :
    k ∈ storeKeys s ∨ k = "theme_preference" ∨ k = "auth_token" := by
  cases op with
  | saveThemePreference mode =>
    simp only [applyStoreOp, saveThemePreferenceStore] at hk
    by_cases hm : mode ≠ "system"
    · rw [if_pos hm] at hk
      simp only [setItem, storeKeys, List.map_cons, List.mem_cons] at hk
      rcases hk with h | h
      · exact Or.inr (Or.inl h)
      · left
        obtain ⟨kv, hmem, hfst⟩ := List.mem_map.mp h
        exact List.mem_map.mpr ⟨kv, (List.mem_filter.mp hmem).1, hfst⟩
    · rw [if_neg hm] at hk
      exact Or.inl hk
  | loadThemePreference => exact Or.inl hk
  | loadSavedVotes => exact Or.inl hk
  | loadAuthToken => exact Or.inl hk
  | handleVote votes =>
    simp only [applyStoreOp, handleVoteStore, handleVoteToken] at hk
    exact Or.inl hk

/-- Witness for C6: saving a dark theme on an empty store persists only
the theme key. -/
theorem C6_store_keys_invariant_witness :
    "theme_preference" ∈ storeKeys [] ∨ "theme_preference" = "theme_preference" ∨
      "theme_preference" = "auth_token" :=
  C6_store_keys_invariant (.saveThemePreference "dark") [] "theme_preference"
    (by decide)

/-- C7 counterexample: not every screen data-fetch preserves loaded data
on HTTP failure — `fetchPostDetails` replaces the previously loaded post
by `null` on error (and its screen has no error message to set). -/
theorem C7_counterexample :
    (fetchPostDetails "42" (Except.error "Network Error")
        { post := (some "old post" : Option String), loading := false,
          refreshing := false }).post = none ∧
    (fetchPostDetails "42" (Except.error "Network Error")
        { post := (some "old post" : Option String), loading := false,
          refreshing := false }).post ≠ some "old post" := by
  decide

/-- C7 amended: for the two cited fetches — the events fetch and the
user-profile fetch — an HTTP failure sets the single generic error
message and leaves the previously loaded data untouched; this does not
extend to every fetch (the post-details fetch nulls the loaded post
without setting a message). -/
theorem C7_fetch_error_preserves_data {α : Type} (t : String → String)
    (e : String) (s1 : EventsScreenState) (s2 : ProfileState α) :
    ((fetchEvents t (.error e) s1).events = s1.events ∧
      (fetchEvents t (.error e) s1).error = t "events_load_error") ∧
    ((fetchUserProfile t (.error e) s2).profile = s2.profile ∧
      (fetchUserProfile t (.error e) s2).error = t "failed_to_load_profile") := by
  refine ⟨⟨?_, ?_⟩, ⟨?_, ?_⟩⟩
  · unfold fetchEvents; dsimp only; split <;> rfl
  · unfold fetchEvents; dsimp only
  · unfold fetchUserProfile; dsimp only; split <;> rfl
  · unfold fetchUserProfile; dsimp only

/-- C9: every post stored by the map screen's fetch pipeline has a
parsed, non-zero latitude and longitude. -/
theorem C9_posts_have_nonzero_coords (data : List RawPost) (p : ProcessedPost)
    (hp : p ∈ processPosts data) :
    (∃ qa : Rat, p.lat = some qa ∧ qa ≠ 0) ∧
    (∃ qb : Rat, p.lng = some qb ∧ qb ≠ 0) := by
  unfold processPosts at hp
  rw [List.mem_filter] at hp
  obtain ⟨-, hfilt⟩ := hp
  rw [Bool.and_eq_true] at hfilt
  obtain ⟨h1, h2⟩ := hfilt
  constructor
  · cases hl : p.lat with
    | none => rw [hl] at h1; exact absurd h1 (by decide)
    | some q =>
      refine ⟨q, rfl, ?_⟩
      rw [hl] at h1
      simpa [truthyNum] using h1
  · cases hl : p.lng with
    | none => rw [hl] at h2; exact absurd h2 (by decide)
    | some q =>
      refine ⟨q, rfl, ?_⟩
      rw [hl] at h2
      simpa [truthyNum] using h2

/-- Once the cursor has exhausted the templates (or when there is no
image path), the error handler maps the fallback state to itself. -/
theorem handleImageError_fixed (path base userName : String) (flag : Bool)
    (rc : Nat) (h : ¬ rc < 3 ∨ path = "") :
    handleImageError path base userName flag (fallbackState userName rc) =
      fallbackState userName rc := by
  have hc : (rc < maxRetries && !(path == "")) = false := by
    rcases h with h | h
    · simp [maxRetries, STORAGE_PATHS, h]
    · simp [h]
  unfold handleImageError
  simp only [fallbackState, hc, Bool.false_eq_true, if_false]
  rfl

/-- Below the cursor bound and with a nonempty path, the error handler
advances the cursor and selects the next retry candidate. -/
theorem handleImageError_step (path base userName : String) (flag : Bool)
    (hp : path ≠ "") (rc : Nat) (hrc : rc < 3) (src : Option String)
    (err : Bool) :
    handleImageError path base userName flag ⟨rc, src, err⟩ =
      ⟨rc + 1, some (retryUrl base (stripLeadingSlashes path) flag rc), err⟩ := by
  have hc : (rc < maxRetries && !(path == "")) = true := by
    simp [maxRetries, STORAGE_PATHS, hrc, hp]
  unfold handleImageError
  simp only [hc, if_true]
  rw [if_pos (by simpa [STORAGE_PATHS] using hrc)]

/-- Four reported failures drive the hook into the fallback state. -/
theorem handleImageError_reach (path base userName : String) (flag : Bool) :
    (handleImageError path base userName flag)^[4] (initState path base flag) =
      fallbackState userName (if path = "" then 0 else 3) := by
  by_cases hp : path = ""
  · rw [if_pos hp]
    subst hp
    have h1 : handleImageError "" base userName flag (initState "" base flag) =
        fallbackState userName 0 := by
      unfold handleImageError initState
      simp [useFallbackAvatar, fallbackState]
    show (handleImageError "" base userName flag)^[3]
        (handleImageError "" base userName flag (initState "" base flag)) = _
    rw [h1]
    exact Function.iterate_fixed
      (handleImageError_fixed "" base userName flag 0 (Or.inr rfl)) 3
  · rw [if_neg hp]
    have hinit : initState path base flag =
        ⟨0, UserDetails.getImageUrl path base flag, false⟩ := by
      simp [initState, hp]
    have h1 := handleImageError_step path base userName flag hp 0 (by omega)
      (UserDetails.getImageUrl path base flag) false
    have h2 := handleImageError_step path base userName flag hp 1 (by omega)
      (some (retryUrl base (stripLeadingSlashes path) flag 0)) false
    have h3 := handleImageError_step path base userName flag hp 2 (by omega)
      (some (retryUrl base (stripLeadingSlashes path) flag 1)) false
    have h4 : handleImageError path base userName flag
        ⟨3, some (retryUrl base (stripLeadingSlashes path) flag 2), false⟩ =
        fallbackState userName 3 := by
      have hc : ((3:Nat) < maxRetries && !(path == "")) = false := by
        simp [maxRetries, STORAGE_PATHS]
      unfold handleImageError
      simp only [hc, Bool.false_eq_true, if_false]
      rfl
    show handleImageError path base userName flag
        (handleImageError path base userName flag
          (handleImageError path base userName flag
            (handleImageError path base userName flag
              (initState path base flag)))) = _
    rw [hinit, h1, h2, h3, h4]

/-- C3 counterexample: the fallback URL percent-encodes the display-name
initial, so for the name `" x"` the source is `name=%20`, not the literal
`name= ` the claim's template produces. -/
theorem C3_counterexample :
    ((handleImageError "p.png" BASE_URL " x" false)^[4]
        (initState "p.png" BASE_URL false)).source ≠
      some "https://ui-avatars.com/api/?name= &background=random&color=fff&size=100" ∧
    ((handleImageError "p.png" BASE_URL " x" false)^[4]
        (initState "p.png" BASE_URL false)).source =
      some "https://ui-avatars.com/api/?name=%20&background=random&color=fff&size=100" := by
  decide

/-- C3 amended: after at most four reported failures (and from then on,
for every further failure) the source is the initials-avatar URL whose
`name` parameter is the `encodeURIComponent`-encoding of the display
name's first character uppercased (`'U'` when the name is absent), and
the error flag is set. -/
theorem C3_amended_fallback_absorbing (path base userName : String)
    (flag : Bool) (n : Nat) (hn : 4 ≤ n) :
    ((handleImageError path base userName flag)^[n]
        (initState path base flag)).source =
      some ("https://ui-avatars.com/api/?name=" ++
        encodeURIComponent (getInitial userName) ++
        "&background=random&color=fff&size=100") ∧
    ((handleImageError path base userName flag)^[n]
        (initState path base flag)).imageError = true := by
  obtain ⟨k, rfl⟩ : ∃ k, n = k + 4 := ⟨n - 4, by omega⟩
  rw [Function.iterate_add_apply, handleImageError_reach]
  have hfix : handleImageError path base userName flag
      (fallbackState userName (if path = "" then 0 else 3)) =
      fallbackState userName (if path = "" then 0 else 3) := by
    by_cases hp : path = ""
    · rw [if_pos hp]
      exact handleImageError_fixed path base userName flag 0 (Or.inr hp)
    · rw [if_neg hp]
      exact handleImageError_fixed path base userName flag 3 (Or.inl (by omega))
  rw [Function.iterate_fixed hfix]
  exact ⟨rfl, rfl⟩

/-- Witness for the amended C3: five failures on a concrete avatar. -/
theorem C3_amended_fallback_absorbing_witness :
    (4:Nat) ≤ 5 ∧
    ((handleImageError "x.png" "b" "Al" false)^[5]
        (initState "x.png" "b" false)).source =
      some ("https://ui-avatars.com/api/?name=" ++
        encodeURIComponent (getInitial "Al") ++
        "&background=random&color=fff&size=100") :=
  ⟨by omega,
   (C3_amended_fallback_absorbing "x.png" "b" "Al" false 5 (by omega)).1⟩

/-- The base-path templates actually used across the three `getImageUrl`
copies, applied to a cleaned path. -/
def candidateUrls (apiBase cleaned : String) : List String :=
  [apiBase ++ "/storage/" ++ cleaned,
   apiBase ++ "/" ++ cleaned,
   apiBase ++ "/api/users/" ++ cleaned ++ "/avatar",
   apiBase ++ "/storage/avatar/" ++ cleaned]

/-- C1 counterexample: the home-screen copy resolves the slash-free
reference `photo.png` to the `/storage/avatar/` template, which is none
of the three templates the claim enumerates. -/
theorem C1_counterexample :
    Home.getImageUrl "photo.png" BASE_URL =
      some (BASE_URL ++ "/storage/avatar/photo.png") ∧
    Home.getImageUrl "photo.png" BASE_URL ≠
      some (BASE_URL ++ "/storage/photo.png") ∧
    Home.getImageUrl "photo.png" BASE_URL ≠
      some (BASE_URL ++ "/photo.png") ∧
    Home.getImageUrl "photo.png" BASE_URL ≠
      some (BASE_URL ++ "/api/users/photo.png/avatar") := by
  decide

/-- C1 amended: for every non-absolute, non-empty reference each copy of
`getImageUrl` returns exactly one candidate URL, formed by prefixing one
of the four base-path templates (`/storage/`, bare base, the
`/api/users/…/avatar` pattern, or the home screen's `/storage/avatar/`)
to the cleaned path. -/
theorem C1_amended_candidate_templates (path base : String) (flag : Bool)
    (habs : isAbsoluteUrl path = false) (hne : path ≠ "") :
    (∃ u ∈ candidateUrls base (stripLeadingSlashes path),
      UserDetails.getImageUrl path base flag = some u) ∧
    (∃ u ∈ candidateUrls base (stripLeadingSlashes path),
      PostDetails.getImageUrl path base flag = some u) ∧
    (∃ u ∈ candidateUrls base (stripLeadingSlashes path),
      Home.getImageUrl path base = some u) := by
  refine ⟨?_, ?_, ?_⟩ <;>
  · simp only [UserDetails.getImageUrl, PostDetails.getImageUrl,
      Home.getImageUrl, habs, hne, if_neg, if_false, Bool.false_eq_true,
      reduceIte]
    split_ifs <;> exact ⟨_, by simp [candidateUrls], rfl⟩

/-- Witness for the amended C1 at `pic.png`. -/
theorem C1_amended_candidate_templates_witness :
    (∃ u ∈ candidateUrls "b" (stripLeadingSlashes "pic.png"),
      UserDetails.getImageUrl "pic.png" "b" false = some u) ∧
    (∃ u ∈ candidateUrls "b" (stripLeadingSlashes "pic.png"),
      PostDetails.getImageUrl "pic.png" "b" false = some u) ∧
    (∃ u ∈ candidateUrls "b" (stripLeadingSlashes "pic.png"),
      Home.getImageUrl "pic.png" "b" = some u) :=
  C1_amended_candidate_templates "pic.png" "b" false (by decide) (by decide)

/-- C5 counterexample: the three copies are not one and the same string
transformation — the home copy disagrees with the user-details copy on
`photo.png`, and the post-details copy disagrees with the user-details
copy on `storage/garbage_post_images/x.jpg`. -/
theorem C5_counterexample :
    Home.getImageUrl "photo.png" BASE_URL ≠
      UserDetails.getImageUrl "photo.png" BASE_URL false ∧
    PostDetails.getImageUrl "storage/garbage_post_images/x.jpg" BASE_URL false ≠
      UserDetails.getImageUrl "storage/garbage_post_images/x.jpg" BASE_URL false := by
  decide

/-- C5 amended: the user-details and post-details copies agree on every
input whose cleaned path does not start with
`storage/garbage_post_images/`; the home copy differs further. -/
theorem C5_amended_user_post_agree (path base : String) (flag : Bool)
    (h : startsWithStr (stripLeadingSlashes path)
        "storage/garbage_post_images/" = false) :
    UserDetails.getImageUrl path base flag =
      PostDetails.getImageUrl path base flag := by
  simp only [UserDetails.getImageUrl, PostDetails.getImageUrl, h,
    Bool.false_eq_true, if_false]
  split_ifs <;> rfl

/-- Witness for the amended C5 at `photo.png`. -/
theorem C5_amended_user_post_agree_witness :
    UserDetails.getImageUrl "photo.png" "b" false =
      PostDetails.getImageUrl "photo.png" "b" false :=
  C5_amended_user_post_agree "photo.png" "b" false (by decide)

/-- The three non-avatar retry candidates have pairwise different
lengths, hence are pairwise distinct. -/
theorem retryUrl_plain_ne (base c : String) {i j : Nat} (hi : i < 3)
    (hj : j < 3) (hij : i ≠ j) :
    retryUrl base c false i ≠ retryUrl base c false j := by
  have len : ∀ k, k < 3 →
      (retryUrl base c false k).length =
        base.length + (STORAGE_PATHS.getD k "").length + c.length := by
    intro k hk
    simp [retryUrl, String.length_append]
  intro he
  have := congrArg String.length he
  rw [len i hi, len j hj] at this
  interval_cases i <;> interval_cases j <;> simp_all [STORAGE_PATHS] <;>
    exact absurd this (by decide)

/-- The three avatar retry candidates differ in the character right after
the API base, hence are pairwise distinct. -/
theorem retryUrl_avatar_ne (base c : String) {i j : Nat} (hi : i < 3)
    (hj : j < 3) (hij : i ≠ j) :
    retryUrl base c true i ≠ retryUrl base c true j := by
  have hSA : ∀ u v : String, ("/storage/avatar/" ++ u) ≠ ("/api/users/" ++ v) := by
    intro u v
    exact ne_of_head2_ne '/' 's' 'a' ("torage/avatar/".data ++ u.data)
      ("pi/users/".data ++ v.data) rfl rfl (by decide)
  have hSP : ∀ u v : String,
      ("/storage/avatar/" ++ u) ≠ ("/public/storage/" ++ v) := by
    intro u v
    exact ne_of_head2_ne '/' 's' 'p' ("torage/avatar/".data ++ u.data)
      ("ublic/storage/".data ++ v.data) rfl rfl (by decide)
  have hAP : ∀ u v : String,
      ("/api/users/" ++ u) ≠ ("/public/storage/" ++ v) := by
    intro u v
    exact ne_of_head2_ne '/' 'a' 'p' ("pi/users/".data ++ u.data)
      ("ublic/storage/".data ++ v.data) rfl rfl (by decide)
  have e0 : retryUrl base c true 0 =
      base ++ ("/storage/avatar/" ++ replaceFirst c "avatar/") := by
    simp [retryUrl, String.append_assoc]
  have e1 : retryUrl base c true 1 =
      base ++ ("/api/users/" ++
        (firstSegment (replaceFirst c "avatar/") ++ "/avatar")) := by
    simp [retryUrl, String.append_assoc]
  have e2 : retryUrl base c true 2 =
      base ++ ("/public/storage/" ++ c) := by
    simp [retryUrl, STORAGE_PATHS, String.append_assoc]
  interval_cases i <;> interval_cases j
  · exact absurd rfl hij
  · rw [e0, e1]; exact append_right_ne base (hSA _ _)
  · rw [e0, e2]; exact append_right_ne base (hSP _ _)
  · rw [e1, e0]; exact append_right_ne base (Ne.symm (hSA _ _))
  · exact absurd rfl hij
  · rw [e1, e2]; exact append_right_ne base (hAP _ _)
  · rw [e2, e0]; exact append_right_ne base (Ne.symm (hSP _ _))
  · rw [e2, e1]; exact append_right_ne base (Ne.symm (hAP _ _))
  · exact absurd rfl hij

/-- C2 counterexample: the home-screen handler has no cursor — with the
initial URL `…/storage/photo.png` its first and second reported failures
select the same candidate `…/public/storage/photo.png`; moreover in the
cursor handlers the cursor-0 candidate repeats the initially displayed
URL, so the first failure does not try a fresh candidate. -/
theorem C2_counterexample :
    (Home.handleImageError BASE_URL "http://127.0.0.1:8000/storage/photo.png" "U"
        ⟨false, some "http://127.0.0.1:8000/storage/photo.png"⟩).source =
      some "http://127.0.0.1:8000/public/storage/photo.png" ∧
    (Home.handleImageError BASE_URL "http://127.0.0.1:8000/storage/photo.png" "U"
        (Home.handleImageError BASE_URL "http://127.0.0.1:8000/storage/photo.png" "U"
          ⟨false, some "http://127.0.0.1:8000/storage/photo.png"⟩)).source =
      some "http://127.0.0.1:8000/public/storage/photo.png" ∧
    retryUrl BASE_URL "pic.png" false 0 = "http://127.0.0.1:8000/storage/pic.png" ∧
    UserDetails.getImageUrl "pic.png" BASE_URL false =
      some "http://127.0.0.1:8000/storage/pic.png" := by
  decide

/-- C2 amended: in the cursor-based handlers (user-details and
post-details copies) each failure below the bound advances the cursor by
one and selects the candidate built from the next template applied to the
cleaned path, and the three retry candidates are pairwise distinct —
though the first retry may repeat the initially displayed URL, and the
home-screen handler instead recomputes one fixed alternative on every
failure. -/
theorem C2_amended_cursor_advances (path base userName : String)
    (flag : Bool) (s : ImgState) (hp : path ≠ "") (hrc : s.retryCount < 3) :
    ((handleImageError path base userName flag s).retryCount =
        s.retryCount + 1 ∧
      (handleImageError path base userName flag s).source =
        some (retryUrl base (stripLeadingSlashes path) flag s.retryCount)) ∧
    (∀ (c : String) (i j : Nat), i < 3 → j < 3 → i ≠ j →
      retryUrl base c flag i ≠ retryUrl base c flag j) := by
  constructor
  · obtain ⟨rc, src, err⟩ := s
    rw [handleImageError_step path base userName flag hp rc hrc src err]
    exact ⟨rfl, rfl⟩
  · intro c i j hi hj hij
    cases flag with
    | false => exact retryUrl_plain_ne base c hi hj hij
    | true => exact retryUrl_avatar_ne base c hi hj hij

/-- Witness for the amended C2: one failure from the freshly initialized
state for `pic.png`. -/
theorem C2_amended_cursor_advances_witness :
    ((handleImageError "pic.png" "b" "U" false
        ⟨0, some "b/storage/pic.png", false⟩).retryCount = 0 + 1 ∧
      (handleImageError "pic.png" "b" "U" false
        ⟨0, some "b/storage/pic.png", false⟩).source =
        some (retryUrl "b" (stripLeadingSlashes "pic.png") false 0)) ∧
    (∀ (c : String) (i j : Nat), i < 3 → j < 3 → i ≠ j →
      retryUrl "b" c false i ≠ retryUrl "b" c false j) :=
  C2_amended_cursor_advances "pic.png" "b" "U" false
    ⟨0, some "b/storage/pic.png", false⟩ (by decide) (by decide)

/-- C8: the client-side event sort returns a permutation of the fetched
list; `'recent'` orders by ascending date, `'oldest'` by descending date,
and `'alphabet'` by locale comparison of titles with missing titles
treated as the empty string (assuming the locale comparator is a total
preorder, as `localeCompare` is). -/
theorem C8_sortedEvents_sorted_perm (dv : String → Int)
    (lc : String → String → Int) (sortBy : String) (events : List Event) :
    (sortedEvents dv lc sortBy events).Perm events ∧
    (sortBy = "recent" →
      (sortedEvents dv lc sortBy events).Pairwise
        (fun a b => dv a.date ≤ dv b.date)) ∧
    (sortBy = "oldest" →
      (sortedEvents dv lc sortBy events).Pairwise
        (fun a b => dv b.date ≤ dv a.date)) ∧
    (sortBy = "alphabet" →
      (∀ a b : String, lc a b ≤ 0 ∨ lc b a ≤ 0) →
      (∀ a b c : String, lc a b ≤ 0 → lc b c ≤ 0 → lc a c ≤ 0) →
      (sortedEvents dv lc sortBy events).Pairwise
        (fun a b => lc (a.title.getD "") (b.title.getD "") ≤ 0)) := by
  by_cases h0 : events.length = 0
  · have he : events = [] := List.length_eq_zero.mp h0
    subst he
    refine ⟨?_, ?_, ?_, ?_⟩
    · simp [sortedEvents]
    · intro h; simp [sortedEvents]
    · intro h; simp [sortedEvents]
    · intro h _ _; simp [sortedEvents]
  · unfold sortedEvents
    rw [if_neg h0]
    refine ⟨?_, ?_, ?_, ?_⟩
    · split_ifs <;> first | exact List.mergeSort_perm _ _ | exact List.Perm.refl _
    · rintro rfl
      rw [if_pos rfl]
      have h := @List.sorted_mergeSort Event
        (fun a b : Event => decide (dv a.date ≤ dv b.date))
        (fun a b c h1 h2 => by
          simp only [decide_eq_true_eq] at *
          exact le_trans h1 h2)
        (fun a b => by
          simp only [Bool.or_eq_true, decide_eq_true_eq]
          exact Int.le_total _ _)
        events
      exact h.imp (fun hab => by simpa using hab)
    · rintro rfl
      rw [if_neg (by decide), if_pos rfl]
      have h := @List.sorted_mergeSort Event
        (fun a b : Event => decide (dv b.date ≤ dv a.date))
        (fun a b c h1 h2 => by
          simp only [decide_eq_true_eq] at *
          exact le_trans h2 h1)
        (fun a b => by
          simp only [Bool.or_eq_true, decide_eq_true_eq]
          exact Int.le_total _ _)
        events
      exact h.imp (fun hab => by simpa using hab)
    · rintro rfl htot htrans
      rw [if_neg (by decide), if_neg (by decide), if_pos rfl]
      have h := @List.sorted_mergeSort Event
        (fun a b : Event =>
          decide (lc (a.title.getD "") (b.title.getD "") ≤ 0))
        (fun a b c h1 h2 => by
          simp only [decide_eq_true_eq] at *
          exact htrans _ _ _ h1 h2)
        (fun a b => by
          simp only [Bool.or_eq_true, decide_eq_true_eq]
          exact htot _ _)
        events
      exact h.imp (fun hab => by simpa using hab)

/-- Witness for C8: sorting two events alphabetically by a length-based
locale comparator. -/
theorem C8_sortedEvents_sorted_perm_witness :
    (sortedEvents (fun s => (s.length : Int))
        (fun a b => (a.length : Int) - b.length) "alphabet"
        [⟨"2024-05-01", some "bb"⟩, ⟨"2023-01-01", some "a"⟩]).Pairwise
      (fun a b =>
        ((a.title.getD "").length : Int) - (b.title.getD "").length ≤ 0) :=
  (C8_sortedEvents_sorted_perm (fun s => (s.length : Int))
      (fun a b => (a.length : Int) - b.length) "alphabet"
      [⟨"2024-05-01", some "bb"⟩, ⟨"2023-01-01", some "a"⟩]).2.2.2 rfl
    (fun a b => by omega)
    (fun a b c h1 h2 => by omega)

/-- Witness for C9 on a one-post list with coordinates `1` and `-2`. -/
theorem C9_posts_have_nonzero_coords_witness :
    (∃ qa : Rat, (⟨some 1, some (-2)⟩ : ProcessedPost).lat = some qa ∧ qa ≠ 0) ∧
    (∃ qb : Rat, (⟨some 1, some (-2)⟩ : ProcessedPost).lng = some qb ∧ qb ≠ 0) :=
  C9_posts_have_nonzero_coords
    [{ latitude := ⟨true, some 1⟩, lat := ⟨false, none⟩,
       longitude := ⟨false, none⟩, lng := ⟨true, some (-2)⟩ }]
    ⟨some 1, some (-2)⟩ (by decide)

end Berllog
